import Mathlib

/-!
A shallow embedding of the `Product_catalog` Django application — the files
`catalog/models.py`, `catalog/service.py`, `catalog/serializers.py` and
`catalog/views.py` — together with theorems checking the natural-language
specification against it.

Conventions of the embedding:
* `DecimalField(decimal_places=2)` columns (`price`, `rating`) are embedded as
  integers scaled by 100 (hundredths); the order relations agree with the
  decimal ones, so every comparison in the source is preserved.
* The database is an explicit list of rows passed to each function.
* A query parameter that Python treats as falsy (absent or the empty string)
  is embedded as `none` where the source guards with `if filters.get(...):`.
* Fallible paths return `Except`/`Option` values mirroring the exception the
  source raises or swallows.
-/

deriving instance DecidableEq for Except

namespace Catalog

/-- A stored `Product` row (`catalog/models.py`, class `Product`).
`price` and `rating` are in hundredths (two decimal places); `brand` and
`category` are the foreign-key ids; `created_at` is a timestamp. -/
structure Product where
  id : Nat
  name : String
  slug : String
  brand : Nat
  category : Nat
  description : String
  price : Int
  rating : Int
  in_stock : Bool
  created_at : Nat
deriving DecidableEq

/-- Prefix test on character lists (helper for substring containment). -/
def isPrefixChars : List Char → List Char → Bool
  | [], _ => true
  | _ :: _, [] => false
  | a :: as, b :: bs => a == b && isPrefixChars as bs

/-- Substring containment on character lists: the needle occurs contiguously
inside the haystack. -/
def containsChars (needle : List Char) : List Char → Bool
  | [] => isPrefixChars needle []
  | c :: rest => isPrefixChars needle (c :: rest) || containsChars needle rest

/-- Django `icontains`: case-insensitive substring containment, used by
`get_products` for `name__icontains` / `description__icontains`. -/
def icontains (hay sub : String) : Bool :=
  containsChars (sub.data.map Char.toLower) (hay.data.map Char.toLower)

/-- Python `str.lower()` (over the characters of the string). -/
def strLower (s : String) : String := String.mk (s.data.map Char.toLower)

/-- The `in_stock` token rule of `get_products`:
`filters["in_stock"].lower() in ["true", "1"]`. -/
def inStockToken (tok : String) : Bool :=
  strLower tok == "true" || strLower tok == "1"

/-- Python truthiness of an optional string parameter: absent or empty is
falsy, so `if filters.get(key):` skips the filter in both cases. -/
def optTruthyStr : Option String → Option String
  | none => none
  | some s => if s == "" then none else some s

/-- The filter set accepted by `service.get_products`. `none` models a key
that is absent (or, for the truthiness-guarded keys, present but falsy);
`in_stock` is guarded by `is not None` in the source, so an empty token is
still applied there. -/
structure Filters where
  brand : Option Nat := none
  category : Option Nat := none
  in_stock : Option String := none
  min_price : Option Int := none
  max_price : Option Int := none
  search : Option String := none
  ordering : Option String := none

/-- One optional-filter step of `get_products`: apply `.filter(test v)` when
the parameter is supplied, keep the queryset unchanged otherwise. -/
def applyOptFilter {α : Type} (o : Option α) (test : α → Product → Bool)
    (l : List Product) : List Product :=
  match o with
  | some v => l.filter (test v)
  | none => l

/-- A lazy queryset as produced by `service.get_products`: the filtered rows
together with the raw `order_by` clause (Django records the clause and only
interprets it when the queryset is evaluated). -/
structure QuerySet where
  rows : List Product
  order_clause : Option String

/-- `service.get_products(filters)` (`catalog/service.py`): applies each
supplied filter in sequence — brand, category, the `in_stock` token rule,
`price__gte`, `price__lte`, and the case-insensitive name-or-description
search — then records the raw ordering parameter via `order_by`. -/
def get_products (filters : Filters) (db : List Product) : QuerySet :=
  let q1 := applyOptFilter filters.brand (fun b p => p.brand == b) db
  let q2 := applyOptFilter filters.category (fun c p => p.category == c) q1
  let q3 := applyOptFilter filters.in_stock
    (fun tok p => p.in_stock == inStockToken tok) q2
  let q4 := applyOptFilter filters.min_price (fun v p => decide (v ≤ p.price)) q3
  let q5 := applyOptFilter filters.max_price (fun v p => decide (p.price ≤ v)) q4
  let q6 := applyOptFilter (optTruthyStr filters.search)
    (fun s p => icontains p.name s || icontains p.description s) q5
  ⟨q6, optTruthyStr filters.ordering⟩

/-- The four orderable fields documented for the listing endpoint. -/
inductive OrderKey
  | price
  | rating
  | created_at
  | name
deriving DecidableEq

/-- Parse an `order_by` field expression over the documented orderable fields:
one of `price`, `rating`, `created_at`, `name`, optionally prefixed with a
hyphen for descending order. Any other expression names no such field. -/
def parseOrdering (s : String) : Option (OrderKey × Bool) :=
  if s == "price" then some (OrderKey.price, false)
  else if s == "-price" then some (OrderKey.price, true)
  else if s == "rating" then some (OrderKey.rating, false)
  else if s == "-rating" then some (OrderKey.rating, true)
  else if s == "created_at" then some (OrderKey.created_at, false)
  else if s == "-created_at" then some (OrderKey.created_at, true)
  else if s == "name" then some (OrderKey.name, false)
  else if s == "-name" then some (OrderKey.name, true)
  else none

/-- The comparison used when sorting by an order key (descending when the
clause carried a leading hyphen). -/
def keyLE (k : OrderKey) (desc : Bool) (a b : Product) : Bool :=
  let le :=
    match k with
    | OrderKey.price => decide (a.price ≤ b.price)
    | OrderKey.rating => decide (a.rating ≤ b.rating)
    | OrderKey.created_at => decide (a.created_at ≤ b.created_at)
    | OrderKey.name => decide (a.name ≤ b.name)
  if desc then !le || a == b else le

/-- Insertion step of the sort applied when a queryset is evaluated. -/
def insertLE (le : Product → Product → Bool) (a : Product) :
    List Product → List Product
  | [] => [a]
  | b :: rest => if le a b then a :: b :: rest else b :: insertLE le a rest

/-- Sorting applied when a queryset is evaluated (only the membership of the
result matters to the claims; the exact order is not part of any claim). -/
def sortLE (le : Product → Product → Bool) : List Product → List Product
  | [] => []
  | a :: rest => insertLE le a (sortLE le rest)

/-- The fault the query layer raises for an `order_by` expression that names
no orderable field (Django `FieldError`). -/
inductive QueryFault
  | fieldError
deriving DecidableEq

/-- Evaluate a queryset: apply the recorded ordering clause, or the model
`Meta` default `-created_at` (newest first) when none was recorded. An
expression naming no orderable field fails in the query layer. -/
def QuerySet.eval (qs : QuerySet) : Except QueryFault (List Product) :=
  match qs.order_clause with
  | none => Except.ok (sortLE (keyLE OrderKey.created_at true) qs.rows)
  | some s =>
      match parseOrdering s with
      | none => Except.error QueryFault.fieldError
      | some kd => Except.ok (sortLE (keyLE kd.1 kd.2) qs.rows)

/-- The validated fields of a `ProductSerializer` payload
(`catalog/serializers.py`). `in_stock` is optional (the object-level rule
reads `data.get("in_stock", True)`); `price` and `rating` are in hundredths,
matching their two decimal places. -/
structure ProductInput where
  name : String
  brand_id : Nat
  category_id : Nat
  price : Int
  rating : Int
  in_stock : Option Bool
deriving DecidableEq

/-- `ProductSerializer.is_valid()`: the `PrimaryKeyRelatedField` checks that
`brand_id` and `category_id` name existing rows, `validate_price` requires
`price >= 0.01`, `validate_rating` requires `0 <= rating <= 5`, and the
object-level `validate` rejects `in_stock=False` with a positive price. -/
def product_serializer_valid (brands categories : List Nat)
    (inp : ProductInput) : Bool :=
  brands.contains inp.brand_id
    && categories.contains inp.category_id
    && !(decide (inp.price < 1))
    && !(decide (inp.rating < 0) || decide (inp.rating > 500))
    && !(!(inp.in_stock.getD true) && decide (inp.price > 0))

/-- Python attribute lookup `service.get_product_by_slug`: `catalog/service.py`
defines no function of this name, so the lookup raises `AttributeError` —
embedded as `none`. Were it defined, it would be a lookup from slug to
product. -/
def service_get_product_by_slug :
    Option (List Product → String → Option Product) := none

/-- Python attribute lookup `service.create_product`: `catalog/service.py`
defines no function of this name either, so the lookup raises
`AttributeError` — embedded as `none`. -/
def service_create_product : Option (ProductInput → Product) := none

/-- A response from `custom_response`: the HTTP status code plus an optional
product payload. -/
structure Resp where
  status : Nat
  body : Option Product
deriving DecidableEq

/-- `ProductDetailView.get` (`catalog/views.py`): inside `try`, the view calls
`service.get_product_by_slug(slug)`; the bare `except` maps any exception —
including the `AttributeError` raised because the function does not exist —
to the 404 "Product not found" response. -/
def ProductDetailView_get (db : List Product) (slug : String) : Resp :=
  match service_get_product_by_slug with
  | some f =>
      match f db slug with
      | some p => ⟨200, some p⟩
      | none => ⟨404, none⟩
  | none => ⟨404, none⟩

/-- The outcome of a POST /products/ request: an HTTP response, or an
exception escaping the view (nothing in `ProductListView.post` handles
exceptions from the `service.create_product` call). -/
inductive PostOutcome
  | resp (r : Resp)
  | unhandled (exc : String)
deriving DecidableEq

/-- `ProductListView.post` (`catalog/views.py`): 403 unless the caller is an
authenticated staff user; 400 when serializer validation fails; otherwise the
view calls `service.create_product(...)`, an attribute the service module
does not define, so the call raises `AttributeError` with no enclosing
handler. -/
def ProductListView_post (brands categories : List Nat)
    (is_authenticated is_staff : Bool) (inp : ProductInput) : PostOutcome :=
  if !is_authenticated || !is_staff then PostOutcome.resp ⟨403, none⟩
  else if product_serializer_valid brands categories inp then
    match service_create_product with
    | some f => PostOutcome.resp ⟨201, some (f inp)⟩
    | none => PostOutcome.unhandled ("AttributeError")
  else PostOutcome.resp ⟨400, none⟩

/-- A `CartItem` row (`catalog/models.py`): `user` and `session_id` are
nullable columns; in normal operation exactly one of them is set. -/
structure CartItem where
  id : Nat
  user : Option Nat
  session_id : Option String
  product : Nat
  quantity : Nat
deriving DecidableEq

/-- A resolved cart owner: an authenticated user id, or a session key. -/
inductive Owner
  | user (uid : Nat)
  | session (sk : String)
deriving DecidableEq

/-- A caller as the cart services see it: authenticated, or anonymous with
`request.session.session_key` — which is `None` until a session exists. -/
inductive Caller
  | auth (uid : Nat)
  | anon (sk : Option String)
deriving DecidableEq

/-- The row condition used by `get_cart_items` and `get_or_create`:
`user=u` for an authenticated owner, `session_id=sk` for a session owner. -/
def ownerMatches (o : Owner) (r : CartItem) : Bool :=
  match o with
  | Owner.user u => r.user == some u
  | Owner.session sk => r.session_id == some sk

/-- Replace a row quantity (the in-memory assignment before `save()`). -/
def setQty (r : CartItem) (q : Nat) : CartItem := { r with quantity := q }

/-- The row `get_or_create` inserts for an owner and product with the default
quantity. -/
def mkCartItem (id : Nat) (o : Owner) (product quantity : Nat) : CartItem :=
  match o with
  | Owner.user u => ⟨id, some u, none, product, quantity⟩
  | Owner.session sk => ⟨id, none, some sk, product, quantity⟩

/-- `service.add_to_cart` for a resolved owner: `get_or_create` on the
(owner, product) pair with `defaults=quantity`; when the row already existed,
`cart_item.quantity += quantity; cart_item.save()`. `freshId` is the primary
key the database would assign to a newly inserted row. Returns the store and
the resulting row. -/
def add_to_cart (rows : List CartItem) (freshId : Nat) (o : Owner)
    (product quantity : Nat) : List CartItem × CartItem :=
  match rows.find? (fun r => ownerMatches o r && r.product == product) with
  | some r =>
      let updated := setQty r (r.quantity + quantity)
      (rows.map (fun x => if x.id == r.id then updated else x), updated)
  | none =>
      let created := mkCartItem freshId o product quantity
      (rows ++ [created], created)

/-- The error kinds of the cart request paths. -/
inductive CartErr
  | notFound
  | validation
deriving DecidableEq

/-- `CartView.post`: `CartItemSerializer` validation — the product id must
name an existing product, `validate_quantity` requires quantity ≥ 1, and the
object-level `validate` rejects an out-of-stock product — followed by
`service.add_to_cart`. -/
def cartAdd (db : List Product) (rows : List CartItem) (freshId : Nat)
    (o : Owner) (product_id quantity : Nat) :
    Except CartErr (List CartItem × CartItem) :=
  match db.find? (fun p => p.id == product_id) with
  | none => Except.error CartErr.validation
  | some p =>
      if quantity < 1 then Except.error CartErr.validation
      else if !p.in_stock then Except.error CartErr.validation
      else Except.ok (add_to_cart rows freshId o product_id quantity)

/-- `service.update_cart_item`: `get_cart_items(request).get(pk=item_id)` — a
lookup restricted to the resolved owner's rows — then replace the quantity
and save. When no owned row has that id, `.get` raises `DoesNotExist` and no
row is touched. -/
def update_cart_item (rows : List CartItem) (o : Owner)
    (item_id quantity : Nat) : Except CartErr (List CartItem) :=
  match (rows.filter (fun r => ownerMatches o r)).find?
      (fun r => r.id == item_id) with
  | none => Except.error CartErr.notFound
  | some r =>
      Except.ok (rows.map (fun x => if x.id == r.id then setQty r quantity else x))

/-- `service.delete_cart_item`: the same owner-scoped lookup, then
`item.delete()`. -/
def delete_cart_item (rows : List CartItem) (o : Owner) (item_id : Nat) :
    Except CartErr (List CartItem) :=
  match (rows.filter (fun r => ownerMatches o r)).find?
      (fun r => r.id == item_id) with
  | none => Except.error CartErr.notFound
  | some r => Except.ok (rows.filter (fun x => !(x.id == r.id)))

/-- `CartView.patch`: the bare `except` maps the service `DoesNotExist` to a
404 response, leaving the store as it was. Returns the store and the status
code. -/
def cartPatch (rows : List CartItem) (o : Owner) (item_id quantity : Nat) :
    List CartItem × Nat :=
  match update_cart_item rows o item_id quantity with
  | Except.ok rows2 => (rows2, 200)
  | Except.error _ => (rows, 404)

/-- `CartView.delete`: like `patch`, a missing owned row maps to 404 and the
store is unchanged. -/
def cartDelete (rows : List CartItem) (o : Owner) (item_id : Nat) :
    List CartItem × Nat :=
  match delete_cart_item rows o item_id with
  | Except.ok rows2 => (rows2, 200)
  | Except.error _ => (rows, 404)

/-- `service.clear_cart` (`catalog/service.py`): deletes `filter(user=u)` for
an authenticated caller, else `filter(session_id=request.session.session_key)`.
No session is created first, so an anonymous caller without a session filters
on `session_id IS NULL` — the column value of every user-owned row. Returns
the rows that survive the delete. -/
def clear_cart (rows : List CartItem) (c : Caller) : List CartItem :=
  match c with
  | Caller.auth u => rows.filter (fun r => !(r.user == some u))
  | Caller.anon sk => rows.filter (fun r => !(r.session_id == sk))

/-- The characters Django `slugify` keeps before collapsing separators:
word characters (alphanumerics and underscore), whitespace and hyphens. -/
def slugKeepChar (c : Char) : Bool :=
  c.isAlphanum || c == '_' || c == '-' || c.isWhitespace

/-- A separator character for `slugify`: hyphen or whitespace. -/
def slugSep (c : Char) : Bool := c == '-' || c.isWhitespace

/-- Collapse every run of separator characters into a single hyphen
(`re.sub(r"[-\s]+", "-", value)`); `prevSep` records whether the previous
kept character was part of a separator run. -/
def collapseGo (prevSep : Bool) : List Char → List Char
  | [] => []
  | c :: rest =>
      if slugSep c then
        if prevSep then collapseGo true rest
        else '-' :: collapseGo true rest
      else c :: collapseGo false rest

/-- Strip characters for the final `.strip("-_")` of `slugify`. -/
def stripChar (c : Char) : Bool := c == '-' || c == '_'

/-- `django.utils.text.slugify` in its default ASCII mode: lowercase, drop
every character other than word characters, whitespace and hyphens, collapse
separator runs into single hyphens, and strip leading and trailing hyphens
and underscores. -/
def slugify (s : String) : String :=
  let kept := (s.data.map Char.toLower).filter slugKeepChar
  let collapsed := collapseGo false kept
  String.mk (((collapsed.dropWhile stripChar).reverse.dropWhile stripChar).reverse)

/-- `base_slug = slugify(value)[:200]` in `generate_unique_slug`. -/
def slugBase (value : String) : String :=
  String.mk ((slugify value).data.take 200)

/-- The candidate slugs `generate_unique_slug` probes, in order: the base
itself, then `base-1`, `base-2`, and so on. -/
def slugCandidate (base : String) : Nat → String
  | 0 => base
  | Nat.succ n => base ++ "-" ++ toString (n + 1)

/-- The `while` loop of `generate_unique_slug`: while the current candidate is
taken, move to `f"{base_slug}-{num}"` and increment `num`. The iteration
count is bounded by fuel; the real loop terminates because the store is
finite, and the theorems below only rely on runs in which a free candidate is
reached within the fuel. -/
def slugProbe (existing : List String) (base : String) :
    Nat → Nat → String → String
  | 0, _, slug => slug
  | Nat.succ fuel, num, slug =>
      if existing.contains slug then
        slugProbe existing base fuel (num + 1) (base ++ "-" ++ toString num)
      else slug

/-- `generate_unique_slug(instance, value)` (`catalog/models.py`), over the
set of slugs already stored for the model class. -/
def generate_unique_slug (existing : List String) (value : String) : String :=
  slugProbe existing (slugBase value) (existing.length + 1) 1 (slugBase value)

/-- The first candidate index at or after `i` (within fuel) whose candidate
slug is not already stored. -/
def firstFreeAux (existing : List String) (base : String) :
    Nat → Nat → Option Nat
  | 0, _ => none
  | Nat.succ fuel, i =>
      if existing.contains (slugCandidate base i) then
        firstFreeAux existing base fuel (i + 1)
      else some i

/-- The first free candidate index, probing at most `existing.length + 1`
candidates — enough whenever the probe succeeds at all. -/
def firstFreeIdx (existing : List String) (base : String) : Option Nat :=
  firstFreeAux existing base (existing.length + 1) 0

/-- The slug part of `Model.save()` shared by `Brand`, `Category` and
`Product`: generate a slug only when the stored slug is falsy (empty); an
already-set slug is kept verbatim, so a rename never regenerates it. -/
def save_slug (existing : List String) (slug : String) (name : String) :
    String :=
  if slug == "" then generate_unique_slug existing name else slug

/-- Program counter of one `add_to_cart(request, product, qty)` call,
decomposed into its atomic database statements: the `get_or_create` SELECT,
its INSERT, the retry SELECT after an insert conflict, and the UPDATE issued
by `save()` after the in-memory increment (which uses the quantity read by
the SELECT). -/
inductive AddPc
  | start
  | create
  | reget
  | write (localq : Nat)
  | done
  | stuck
deriving DecidableEq

/-- One atomic database statement of the add path against the single
(owner, product) row, whose state is its quantity (or `none` when absent). -/
def addStep (qty : Nat) (g : Option Nat) (pc : AddPc) : Option Nat × AddPc :=
  match pc with
  | AddPc.start =>
      match g with
      | some q => (g, AddPc.write q)
      | none => (g, AddPc.create)
  | AddPc.create =>
      match g with
      | none => (some qty, AddPc.done)
      | some _ => (g, AddPc.reget)
  | AddPc.reget =>
      match g with
      | some q => (g, AddPc.write q)
      | none => (g, AddPc.stuck)
  | AddPc.write q => (some (q + qty), AddPc.done)
  | AddPc.done => (g, AddPc.done)
  | AddPc.stuck => (g, AddPc.stuck)

/-- Run two concurrent adds of the same quantity for the same (owner, product)
pair under a schedule: `true` means thread A takes the next atomic step. -/
def execAdds (qty : Nat) :
    Option Nat → AddPc × AddPc → List Bool → Option Nat × (AddPc × AddPc)
  | g, pcs, [] => (g, pcs)
  | g, pcs, true :: rest =>
      let s := addStep qty g pcs.1
      execAdds qty s.1 (s.2, pcs.2) rest
  | g, pcs, false :: rest =>
      let s := addStep qty g pcs.2
      execAdds qty s.1 (pcs.1, s.2) rest

/-- Both threads have completed their add. -/
def bothDone (pcs : AddPc × AddPc) : Bool :=
  pcs.1 == AddPc.done && pcs.2 == AddPc.done

/-- All schedules of a given length. -/
def allSchedules : Nat → List (List Bool)
  | 0 => [[]]
  | n + 1 =>
      (allSchedules n).map (List.cons true)
        ++ (allSchedules n).map (List.cons false)

/-- The product row created by the repository test `test_create_product`
(price 9.99, rating 4.5), used as concrete data. -/
def sampleProduct : Product :=
  ⟨1, "Test Product", "test-product", 1, 1, "A sample product", 999, 450,
    true, 100⟩

/-- The `test_create_product` request payload (`catalog/tests.py`). -/
def testInput : ProductInput :=
  ⟨"Test Product", 1, 1, 999, 450, some true⟩

/-- A product-creation payload marked out of stock. -/
def oosInput : ProductInput :=
  ⟨"Out Of Stock Product", 1, 1, 999, 450, some false⟩

/-- A cart row owned by authenticated user 7 (its `session_id` column is
NULL, as for every user-owned row). -/
def user7Row : CartItem := ⟨1, some 7, none, 1, 3⟩

/-- A cart row owned by user 7 with primary key 5, used to probe the
cross-owner lookup. -/
def foreignRow : CartItem := ⟨5, some 7, none, 1, 3⟩

theorem mem_applyOptFilter {α : Type} {o : Option α} {test : α → Product → Bool}
    {l : List Product} {p : Product} (hp : p ∈ applyOptFilter o test l) :
    p ∈ l ∧ ∀ v, o = some v → test v p = true := by
  cases o with
  | none => exact ⟨hp, fun v hv => nomatch hv⟩
  | some v =>
      simp only [applyOptFilter, List.mem_filter] at hp
      refine ⟨hp.1, fun w hw => ?_⟩
      cases hw
      exact hp.2

theorem mem_insertLE (le : Product → Product → Bool) (a x : Product)
    (l : List Product) : x ∈ insertLE le a l ↔ x = a ∨ x ∈ l := by
  induction l with
  | nil => simp [insertLE]
  | cons b rest ih =>
      simp only [insertLE]
      by_cases h : le a b = true
      · rw [if_pos h]
        simp only [List.mem_cons]
      · rw [if_neg h]
        simp only [List.mem_cons, ih]
        tauto

theorem mem_sortLE (le : Product → Product → Bool) (x : Product)
    (l : List Product) : x ∈ sortLE le l ↔ x ∈ l := by
  induction l with
  | nil => simp [sortLE]
  | cons b rest ih =>
      simp [sortLE, mem_insertLE, ih]

theorem mem_eval_rows {qs : QuerySet} {rs : List Product} {p : Product}
    (h : qs.eval = Except.ok rs) (hp : p ∈ rs) : p ∈ qs.rows := by
  cases hoc : qs.order_clause with
  | none =>
      simp only [QuerySet.eval, hoc, Except.ok.injEq] at h
      subst h
      exact (mem_sortLE _ _ _).mp hp
  | some s =>
      cases hpo : parseOrdering s with
      | none =>
          simp only [QuerySet.eval, hoc, hpo] at h
          exact Except.noConfusion h
      | some kd =>
          simp only [QuerySet.eval, hoc, hpo, Except.ok.injEq] at h
          subst h
          exact (mem_sortLE _ _ _).mp hp

/-- Claim C6: every product returned by the catalog query service satisfies
all supplied filters simultaneously — brand, category, the in-stock token
rule, the two price bounds, and the case-insensitive name-or-description
search — while absent filters impose no constraint beyond membership in the
store. -/
theorem C6_filter_conjunction (f : Filters) (db : List Product)
    (rs : List Product) (p : Product)
    (heval : (get_products f db).eval = Except.ok rs) (hp : p ∈ rs) :
    p ∈ db
    ∧ (∀ b, f.brand = some b → p.brand = b)
    ∧ (∀ c, f.category = some c → p.category = c)
    ∧ (∀ tok, f.in_stock = some tok → p.in_stock = inStockToken tok)
    ∧ (∀ v, f.min_price = some v → v ≤ p.price)
    ∧ (∀ v, f.max_price = some v → p.price ≤ v)
    ∧ (∀ s, optTruthyStr f.search = some s →
        (icontains p.name s || icontains p.description s) = true) := by
  have hrows : p ∈ (get_products f db).rows := mem_eval_rows heval hp
  simp only [get_products] at hrows
  obtain ⟨h5, hsearch⟩ := mem_applyOptFilter hrows
  obtain ⟨h4, hmax⟩ := mem_applyOptFilter h5
  obtain ⟨h3, hmin⟩ := mem_applyOptFilter h4
  obtain ⟨h2, hstock⟩ := mem_applyOptFilter h3
  obtain ⟨h1, hcat⟩ := mem_applyOptFilter h2
  obtain ⟨h0, hbrand⟩ := mem_applyOptFilter h1
  refine ⟨h0, ?_, ?_, ?_, ?_, ?_, hsearch⟩
  · exact fun b hb => eq_of_beq (hbrand b hb)
  · exact fun c hc => eq_of_beq (hcat c hc)
  · exact fun tok htok => eq_of_beq (hstock tok htok)
  · exact fun v hv => of_decide_eq_true (hmin v hv)
  · exact fun v hv => of_decide_eq_true (hmax v hv)

/-- Witness for C6 at a concrete request with every filter supplied. -/
theorem C6_filter_conjunction_witness :
    (get_products
        ⟨some 1, some 1, some ("true"), some 500, some 1000, some ("test"),
          some ("price")⟩ [sampleProduct]).eval = Except.ok [sampleProduct]
    ∧ sampleProduct.brand = 1 := by
  have h := C6_filter_conjunction
    ⟨some 1, some 1, some ("true"), some 500, some 1000, some ("test"),
      some ("price")⟩ [sampleProduct] [sampleProduct] sampleProduct
    (by decide) (by decide)
  exact ⟨by decide, h.2.1 1 rfl⟩

/-- Claim C7 (counterexample): an ordering parameter naming no orderable
field is not rejected with a validation error — `get_products` returns a
queryset carrying the raw expression through to the query layer, where
evaluation then fails with a `FieldError`. -/
theorem C7_counterexample :
    (get_products { ordering := some ("bogus") } [sampleProduct]).order_clause
      = some ("bogus")
    ∧ parseOrdering ("bogus") = none
    ∧ (get_products { ordering := some ("bogus") } [sampleProduct]).eval
        = Except.error QueryFault.fieldError :=
  ⟨rfl, rfl, by decide⟩

/-- Claim C7 (amended): when the ordering parameter is present and non-empty,
`get_products` performs no validation on it — the raw field expression is
passed through uninterpreted as the order clause of the returned queryset. -/
theorem C7_ordering_passthrough (f : Filters) (db : List Product) (s : String)
    (h : f.ordering = some s) (hs : ¬s = "") :
    (get_products f db).order_clause = some s := by
  simp only [get_products, optTruthyStr, h]
  simp [hs]

/-- Witness for the amended C7 at the concrete expression `bogus`. -/
theorem C7_ordering_passthrough_witness :
    ¬("bogus" : String) = ""
    ∧ (get_products { ordering := some ("bogus") }
        [sampleProduct]).order_clause = some ("bogus") :=
  ⟨by decide,
    C7_ordering_passthrough { ordering := some ("bogus") } [sampleProduct]
      ("bogus") rfl (by decide)⟩

/-- Claim C10: a product-creation payload with `in_stock = False` never
passes serializer validation — a price below 0.01 fails `validate_price`,
and a price of at least 0.01 (hence positive) fails the out-of-stock rule —
so every product created through the validated write path is in stock. -/
theorem C10_out_of_stock_never_validates (brands categories : List Nat)
    (inp : ProductInput) (h : inp.in_stock = some false) :
    product_serializer_valid brands categories inp = false := by
  by_cases hp : inp.price < 1
  · simp [product_serializer_valid, hp]
  · have hpos : (0 : Int) < inp.price := by omega
    simp [product_serializer_valid, h, hp, hpos]

/-- Witness for C10 at a concrete out-of-stock payload. -/
theorem C10_out_of_stock_never_validates_witness :
    oosInput.in_stock = some false
    ∧ product_serializer_valid [1] [1] oosInput = false :=
  ⟨rfl, C10_out_of_stock_never_validates [1] [1] oosInput rfl⟩

/-- Claim C1 (code bug): `service.get_product_by_slug` does not exist, so
`ProductDetailView.get` answers 404 for every slug — including a slug whose
product is present in the store, where the claim (and the 200 response the
view itself declares) require the product's data. -/
theorem C1_detail_always_404 :
    ([sampleProduct].filter (fun p => p.slug == "test-product")).length = 1
    ∧ ProductDetailView_get [sampleProduct] ("test-product") = ⟨404, none⟩
    ∧ ∀ db slug, ProductDetailView_get db slug = ⟨404, none⟩ :=
  ⟨by decide, by decide, fun _ _ => rfl⟩

/-- Claim C2 (code bug): the staff request of the repository's own
`test_create_product` passes serializer validation, yet the view's call to
the missing `service.create_product` raises `AttributeError` with no handler
on that path — an unhandled fault escapes instead of the 201 response the
claim (and the test) require. Non-staff requests still get a structured 403
response. -/
theorem C2_create_unhandled_fault :
    product_serializer_valid [1] [1] testInput = true
    ∧ ProductListView_post [1] [1] true true testInput
        = PostOutcome.unhandled ("AttributeError")
    ∧ ProductListView_post [1] [1] false false testInput
        = PostOutcome.resp ⟨403, none⟩ :=
  ⟨by decide, by decide, by decide⟩

/-- Claim C3 (code bug): `clear_cart` for an anonymous caller whose session
does not yet exist creates no session and filters on `session_id IS NULL`,
which matches every user-owned row: clearing deletes user 7's cart row,
though the claim requires the rows of every other owner to be untouched. An
anonymous caller with a session, and an authenticated caller, delete only
their own rows. -/
theorem C3_clear_no_session_deletes_user_rows :
    user7Row.user = some 7
    ∧ user7Row.session_id = none
    ∧ clear_cart [user7Row] (Caller.anon none) = []
    ∧ clear_cart [user7Row] (Caller.anon (some ("sess"))) = [user7Row]
    ∧ clear_cart [user7Row] (Caller.auth 7) = [] :=
  ⟨rfl, rfl, by decide, by decide, by decide⟩

/-- Claim C5: when no row with the given id belongs to the resolved owner —
in particular when the row with that id belongs to a different user or a
different session — Update and Remove answer NotFound (mapped to a 404
response) and every cart row, including the other owner's row, is left
unchanged. -/
theorem C5_foreign_item_not_found (rows : List CartItem) (o : Owner)
    (i q : Nat) (h : ∀ r ∈ rows, ownerMatches o r = true → r.id ≠ i) :
    update_cart_item rows o i q = Except.error CartErr.notFound
    ∧ delete_cart_item rows o i = Except.error CartErr.notFound
    ∧ cartPatch rows o i q = (rows, 404)
    ∧ cartDelete rows o i = (rows, 404) := by
  have hfind : (rows.filter (fun r => ownerMatches o r)).find?
      (fun r => r.id == i) = none := by
    rw [List.find?_eq_none]
    intro r hr
    have hmem := List.mem_filter.mp hr
    have hne := h r hmem.1 hmem.2
    simp [hne]
  refine ⟨?_, ?_, ?_, ?_⟩
  · simp [update_cart_item, hfind]
  · simp [delete_cart_item, hfind]
  · simp [cartPatch, update_cart_item, hfind]
  · simp [cartDelete, delete_cart_item, hfind]

/-- Witness for C5: row 5 belongs to user 7; an anonymous caller with session
key `abc` asking for item 5 gets NotFound and the row survives. -/
theorem C5_foreign_item_not_found_witness :
    ownerMatches (Owner.session ("abc")) foreignRow = false
    ∧ update_cart_item [foreignRow] (Owner.session ("abc")) 5 2
        = Except.error CartErr.notFound
    ∧ cartPatch [foreignRow] (Owner.session ("abc")) 5 2
        = ([foreignRow], 404) := by
  have h := C5_foreign_item_not_found [foreignRow] (Owner.session ("abc")) 5 2
    (by decide)
  exact ⟨by decide, h.1, h.2.2.1⟩

theorem mkCartItem_id (i : Nat) (o : Owner) (pr q : Nat) :
    (mkCartItem i o pr q).id = i := by
  cases o <;> rfl

theorem mkCartItem_product (i : Nat) (o : Owner) (pr q : Nat) :
    (mkCartItem i o pr q).product = pr := by
  cases o <;> rfl

theorem mkCartItem_quantity (i : Nat) (o : Owner) (pr q : Nat) :
    (mkCartItem i o pr q).quantity = q := by
  cases o <;> rfl

theorem ownerMatches_mkCartItem (i : Nat) (o : Owner) (pr q : Nat) :
    ownerMatches o (mkCartItem i o pr q) = true := by
  cases o <;> simp [ownerMatches, mkCartItem]

theorem setQty_mkCartItem (i : Nat) (o : Owner) (pr q q2 : Nat) :
    setQty (mkCartItem i o pr q) q2 = mkCartItem i o pr q2 := by
  cases o <;> rfl

theorem map_keep_of_ne_id (rows : List CartItem) (fid : Nat)
    (g : CartItem → CartItem) (h : ∀ r ∈ rows, r.id ≠ fid) :
    rows.map (fun x => if x.id == fid then g x else x) = rows := by
  induction rows with
  | nil => rfl
  | cons a as ih =>
      have ha : ¬(a.id == fid) = true := by
        simp [h a (List.mem_cons_self a as)]
      simp only [List.map_cons, if_neg ha,
        ih (fun r hr => h r (List.mem_cons_of_mem a hr))]

theorem filter_append_single (rows : List CartItem) (it : CartItem)
    (pred : CartItem → Bool) (hrows : ∀ r ∈ rows, ¬pred r = true)
    (hit : pred it = true) : (rows ++ [it]).filter pred = [it] := by
  rw [List.filter_append, List.filter_eq_nil_iff.mpr hrows]
  simp [hit]

/-- Claim C4: for an existing in-stock product, adding it twice for the same
owner leaves exactly one cart row for the (owner, product) pair, whose
quantity is the sum of the two additions — the second add increments rather
than replaces. `fid1`, `fid2` are the primary keys the database would assign
to newly inserted rows. -/
theorem C4_add_twice_accumulates (db : List Product) (rows : List CartItem)
    (o : Owner) (p : Product) (pid q1 q2 fid1 fid2 : Nat)
    (hfound : db.find? (fun x => x.id == pid) = some p)
    (hstock : p.in_stock = true) (hq1 : 1 ≤ q1) (hq2 : 1 ≤ q2)
    (hfresh : ∀ r ∈ rows, r.id ≠ fid1)
    (hnone : ∀ r ∈ rows, ¬(ownerMatches o r && r.product == pid) = true) :
    ∃ rows1 it1 rows2 it2,
      cartAdd db rows fid1 o pid q1 = Except.ok (rows1, it1)
      ∧ cartAdd db rows1 fid2 o pid q2 = Except.ok (rows2, it2)
      ∧ rows2.filter (fun r => ownerMatches o r && r.product == pid)
          = [mkCartItem fid1 o pid (q1 + q2)]
      ∧ it2 = mkCartItem fid1 o pid (q1 + q2) := by
  have hq1f : ¬q1 < 1 := by omega
  have hq2f : ¬q2 < 1 := by omega
  have hfind1 : rows.find? (fun r => ownerMatches o r && r.product == pid)
      = none := List.find?_eq_none.mpr hnone
  have hadd1 : add_to_cart rows fid1 o pid q1
      = (rows ++ [mkCartItem fid1 o pid q1], mkCartItem fid1 o pid q1) := by
    simp [add_to_cart, hfind1]
  have hpred : (ownerMatches o (mkCartItem fid1 o pid q1)
      && (mkCartItem fid1 o pid q1).product == pid) = true := by
    simp [ownerMatches_mkCartItem, mkCartItem_product]
  have hfind2 : (rows ++ [mkCartItem fid1 o pid q1]).find?
      (fun r => ownerMatches o r && r.product == pid)
      = some (mkCartItem fid1 o pid q1) := by
    rw [List.find?_append, hfind1, Option.none_or]
    exact List.find?_cons_of_pos _ hpred
  have hadd2 : add_to_cart (rows ++ [mkCartItem fid1 o pid q1]) fid2 o pid q2
      = (rows ++ [mkCartItem fid1 o pid (q1 + q2)],
          mkCartItem fid1 o pid (q1 + q2)) := by
    simp only [add_to_cart, hfind2, mkCartItem_quantity, mkCartItem_id,
      setQty_mkCartItem, List.map_append]
    rw [map_keep_of_ne_id rows fid1 _ hfresh]
    simp [mkCartItem_id]
  refine ⟨rows ++ [mkCartItem fid1 o pid q1], mkCartItem fid1 o pid q1,
    rows ++ [mkCartItem fid1 o pid (q1 + q2)], mkCartItem fid1 o pid (q1 + q2),
    ?_, ?_, ?_, rfl⟩
  · simp [cartAdd, hfound, hstock, hq1f, hadd1]
  · simp [cartAdd, hfound, hstock, hq2f, hadd2]
  · exact filter_append_single rows (mkCartItem fid1 o pid (q1 + q2)) _ hnone
      (by simp [ownerMatches_mkCartItem, mkCartItem_product])

/-- Witness for C4: user 7 adds the sample product (in stock) twice, with
quantities 2 and 3, starting from an empty store. -/
theorem C4_add_twice_accumulates_witness :
    sampleProduct.in_stock = true
    ∧ ∃ rows1 it1 rows2 it2,
        cartAdd [sampleProduct] [] 10 (Owner.user 7) 1 2
          = Except.ok (rows1, it1)
        ∧ cartAdd [sampleProduct] rows1 11 (Owner.user 7) 1 3
          = Except.ok (rows2, it2)
        ∧ rows2.filter
            (fun r => ownerMatches (Owner.user 7) r && r.product == 1)
            = [mkCartItem 10 (Owner.user 7) 1 (2 + 3)]
        ∧ it2 = mkCartItem 10 (Owner.user 7) 1 (2 + 3) :=
  ⟨rfl, C4_add_twice_accumulates [sampleProduct] [] (Owner.user 7)
    sampleProduct 1 2 3 10 11 rfl rfl (by decide) (by decide)
    (by simp) (by simp)⟩

theorem slugProbe_spec (existing : List String) (base : String) :
    ∀ fuel num k, 1 ≤ num → num - 1 ≤ k → k < num - 1 + fuel →
      existing.contains (slugCandidate base k) = false →
      (∀ j, num - 1 ≤ j → j < k →
        existing.contains (slugCandidate base j) = true) →
      slugProbe existing base fuel num (slugCandidate base (num - 1))
        = slugCandidate base k := by
  intro fuel
  induction fuel with
  | zero =>
      intro num k h1 h2 h3 _ _
      omega
  | succ fuel ih =>
      intro num k h1 h2 h3 hfree hmin
      simp only [slugProbe]
      by_cases hc : existing.contains (slugCandidate base (num - 1)) = true
      · rw [if_pos hc]
        have hlt : num - 1 < k := by
          rcases Nat.lt_or_ge (num - 1) k with h | h
          · exact h
          · have hek : num - 1 = k := by omega
            rw [hek, hfree] at hc
            exact absurd hc (by simp)
        have hstep : (base ++ "-" ++ toString num)
            = slugCandidate base ((num + 1) - 1) := by
          cases num with
          | zero => omega
          | succ m => rfl
        rw [hstep]
        exact ih (num + 1) k (by omega) (by omega) (by omega) hfree
          (fun j hj1 hj2 => hmin j (by omega) hj2)
      · rw [if_neg hc]
        have heq : num - 1 = k := by
          rcases Nat.lt_or_ge (num - 1) k with h | h
          · exact absurd (hmin (num - 1) (le_refl _) h) hc
          · omega
        rw [heq]

theorem firstFreeAux_spec (existing : List String) (base : String) :
    ∀ fuel i k, firstFreeAux existing base fuel i = some k →
      i ≤ k ∧ k < i + fuel
      ∧ existing.contains (slugCandidate base k) = false
      ∧ ∀ j, i ≤ j → j < k →
          existing.contains (slugCandidate base j) = true := by
  intro fuel
  induction fuel with
  | zero =>
      intro i k h
      exact absurd h (by simp [firstFreeAux])
  | succ fuel ih =>
      intro i k h
      simp only [firstFreeAux] at h
      by_cases hc : existing.contains (slugCandidate base i) = true
      · rw [if_pos hc] at h
        obtain ⟨h1, h2, h3, h4⟩ := ih (i + 1) k h
        refine ⟨by omega, by omega, h3, fun j hj1 hj2 => ?_⟩
        rcases Nat.eq_or_lt_of_le hj1 with he | hl
        · rw [← he]
          exact hc
        · exact h4 j (by omega) hj2
      · rw [if_neg hc] at h
        rw [Bool.not_eq_true] at hc
        cases h
        exact ⟨le_refl _, by omega, hc, fun j hj1 hj2 => by omega⟩

/-- Claim C8: a Brand / Category / Product saved without a slug stores the
slugified display name when it is free, else the first free probe candidate
`base-1`, `base-2`, …; creating `Red Shoe` twice yields `red-shoe` then
`red-shoe-1`; and a row whose slug is already set keeps it verbatim on a
later save (a rename never regenerates the slug). `k` is the index of the
first free candidate, which the probe reaches within its
`existing.length + 1` iterations. -/
theorem C8_slug_lifecycle (existing : List String) (value slug : String)
    (k : Nat) (hk : firstFreeIdx existing (slugBase value) = some k) :
    (¬slug = "" → save_slug existing slug value = slug)
    ∧ save_slug existing ("") value = slugCandidate (slugBase value) k
    ∧ existing.contains (slugCandidate (slugBase value) k) = false
    ∧ (∀ j, j < k →
        existing.contains (slugCandidate (slugBase value) j) = true)
    ∧ generate_unique_slug [] ("Red Shoe") = "red-shoe"
    ∧ generate_unique_slug ["red-shoe"] ("Red Shoe") = "red-shoe-1" := by
  obtain ⟨h1, h2, h3, h4⟩ := firstFreeAux_spec existing (slugBase value)
    (existing.length + 1) 0 k hk
  have hgen : generate_unique_slug existing value
      = slugCandidate (slugBase value) k :=
    slugProbe_spec existing (slugBase value) (existing.length + 1) 1 k
      (le_refl 1) (by omega) (by omega) h3
      (fun j hj1 hj2 => h4 j (by omega) hj2)
  refine ⟨?_, ?_, h3, fun j hj => h4 j (Nat.zero_le j) hj,
    by decide, by decide⟩
  · intro hs
    have hb : (slug == "") = false := by simp [hs]
    simp [save_slug, hb]
  · simp [save_slug, hgen]

/-- Witness for C8 at the concrete store holding `red-shoe` and the display
name `Red Shoe`: the first free candidate has index 1. -/
theorem C8_slug_lifecycle_witness :
    firstFreeIdx ["red-shoe"] (slugBase ("Red Shoe")) = some 1
    ∧ ((¬("kept-slug" : String) = "" →
          save_slug ["red-shoe"] ("kept-slug") ("Red Shoe") = "kept-slug")
      ∧ save_slug ["red-shoe"] ("") ("Red Shoe")
          = slugCandidate (slugBase ("Red Shoe")) 1
      ∧ ["red-shoe"].contains (slugCandidate (slugBase ("Red Shoe")) 1)
          = false
      ∧ (∀ j, j < 1 →
          ["red-shoe"].contains (slugCandidate (slugBase ("Red Shoe")) j)
            = true)
      ∧ generate_unique_slug [] ("Red Shoe") = "red-shoe"
      ∧ generate_unique_slug ["red-shoe"] ("Red Shoe") = "red-shoe-1") :=
  ⟨by decide,
    C8_slug_lifecycle ["red-shoe"] ("Red Shoe") ("kept-slug") 1 (by decide)⟩

/-- Claim C9 (counterexample): the add path is a read-modify-write sequence,
not a single atomic conditional-upsert-then-increment transaction. With the
(owner, product) row already at quantity 1, the interleaving A-select,
B-select, A-update, B-update of two adds of 1 completes both adds at
quantity 2, while both serial orders give 3 — an increment is lost, so the
execution is not equivalent to any atomic (serial) one. -/
theorem C9_counterexample :
    execAdds 1 (some 1) (AddPc.start, AddPc.start) [true, false, true, false]
      = (some 2, (AddPc.done, AddPc.done))
    ∧ execAdds 1 (some 1) (AddPc.start, AddPc.start) [true, true, false, false]
      = (some 3, (AddPc.done, AddPc.done))
    ∧ execAdds 1 (some 1) (AddPc.start, AddPc.start) [false, false, true, true]
      = (some 3, (AddPc.done, AddPc.done)) :=
  ⟨by decide, by decide, by decide⟩

set_option maxRecDepth 8000 in
/-- Claim C9 (amended): starting from no row for the pair, every length-8
schedule (eight slots cover the at most four atomic statements of each add)
in which both adds of 1 complete ends with the row at quantity 2, and such
schedules exist; but the add path is not atomic — with a pre-existing row at
quantity 1 the read-read-write-write interleaving of two adds of 1 ends at
quantity 2, losing an increment (serial execution gives 3). -/
theorem C9_concurrent_adds :
    ((allSchedules 8).all (fun sched =>
      let r := execAdds 1 none (AddPc.start, AddPc.start) sched
      !bothDone r.2 || (r.1 == some 2)) = true)
    ∧ execAdds 1 none (AddPc.start, AddPc.start) [true, true, false, false]
      = (some 2, (AddPc.done, AddPc.done))
    ∧ execAdds 1 (some 1) (AddPc.start, AddPc.start) [true, false, true, false]
      = (some 2, (AddPc.done, AddPc.done)) :=
  ⟨by decide, by decide, by decide⟩

end Catalog
